import Mathlib

/-!
Verification development for the piping-server rendezvous engine
(source: src/piping.ts).

The embedding models the per-path rendezvous state machine:
  - the two registry maps of the Server class
    (pathToEstablished, pathToUnestablishedPipe) as association lists,
  - the request handlers (generateHandler, handleSender, handleReceiver)
    as pure functions from server state to a new state plus a list of
    observable response actions,
  - the close-watcher installed by createSenderOrReceiver and the event
    handlers installed by runPipe as separate transition functions,
    fired by explicit events.

Participants are identified by a numeric id standing for the identity of
the request/response object pair.  Body bytes, header plumbing and the
static landing/version/help page contents are abstracted as opaque-free
output markers; they are peripheral to the rendezvous engine.
-/

/-- Identity of an http request/response pair (the ReqRes record of
piping.ts).  The numeric id models JavaScript object identity. -/
structure ReqRes where
  id : Nat
deriving DecidableEq, Repr

/-- A participant handle: a ReqRes together with (implicitly) the revoke
function of its close-watcher, as in type ReqResAndUnsubscribe. -/
structure ReqResAndUnsubscribe where
  reqRes : ReqRes
deriving DecidableEq, Repr

/-- The per-path record before establishment (type UnestablishedPipe):
at most one sender, a list of receivers, and the expected receiver
count.  nReceivers is an integer because it comes from parseInt and may
be negative before validation. -/
structure UnestablishedPipe where
  sender : Option ReqResAndUnsubscribe
  receivers : List ReqResAndUnsubscribe
  nReceivers : Int
deriving DecidableEq, Repr

/-- The captured participants handed to the transfer engine (type Pipe). -/
structure Pipe where
  sender : ReqRes
  receivers : List ReqRes
deriving DecidableEq, Repr

/-- The three reserved-path static pages.  Their textual contents
(indexPage, VERSION, generateHelpPage) are peripheral and abstracted. -/
inductive StaticPage where
  | index
  | version
  | help
deriving DecidableEq, Repr

/-- Observable response-side actions performed by the server code, in
program order: res.writeHead, res.write, res.end with a body, revoking a
close-watcher (unsubscribeCloseListener), handing the captured pipe to
runPipe, destroying an underlying connection, senderData.unpipe, and
serving a static page via res.end. -/
inductive Output where
  | writeHead (id : Nat) (status : Nat)
  | write (id : Nat) (msg : String)
  | endRes (id : Nat) (msg : String)
  | unsubscribe (id : Nat)
  | startTransfer (path : String) (senderId : Nat) (receiverIds : List Nat)
  | destroyConn (id : Nat)
  | unpipe (id : Nat)
  | endStatic (id : Nat) (page : StaticPage)
deriving DecidableEq, Repr

/-- Association-list lookup for a string-keyed JavaScript object. -/
def lookupKey {α : Type} : List (String × α) → String → Option α
  | [], _ => none
  | e :: es, p => if e.1 = p then some e.2 else lookupKey es p

/-- Association-list insert/update for a string-keyed JavaScript object. -/
def upsertKey {α : Type} : List (String × α) → String → α → List (String × α)
  | [], p, v => [(p, v)]
  | e :: es, p, v => if e.1 = p then (p, v) :: es else e :: upsertKey es p v

/-- Association-list delete for a string-keyed JavaScript object. -/
def removeKey {α : Type} : List (String × α) → String → List (String × α)
  | [], _ => []
  | e :: es, p => if e.1 = p then removeKey es p else e :: removeKey es p

/-- Add a path to the set of keys of pathToEstablished. -/
def addFlag (l : List String) (p : String) : List String :=
  if p ∈ l then l else p :: l

/-- Remove a path from the set of keys of pathToEstablished. -/
def removeFlag : List String → String → List String
  | [], _ => []
  | q :: qs, p => if q = p then removeFlag qs p else q :: removeFlag qs p

/-- The mutable registry of the Server class: the key set of the
pathToEstablished object and the pathToUnestablishedPipe object. -/
structure ServerState where
  pathToEstablished : List String
  pathToUnestablishedPipe : List (String × UnestablishedPipe)
deriving DecidableEq, Repr

/-- Both registry objects start empty. -/
def initialServerState : ServerState :=
  { pathToEstablished := [], pathToUnestablishedPipe := [] }

/-- The check reqPath in this.pathToEstablished. -/
def established (s : ServerState) (p : String) : Prop :=
  p ∈ s.pathToEstablished

instance (s : ServerState) (p : String) : Decidable (established s p) :=
  inferInstanceAs (Decidable (p ∈ s.pathToEstablished))

/-- this.pathToUnestablishedPipe[reqPath] (with the in-check). -/
def lookupPipe (s : ServerState) (p : String) : Option UnestablishedPipe :=
  lookupKey s.pathToUnestablishedPipe p

/-- this.pathToUnestablishedPipe[reqPath] = u. -/
def setPipe (s : ServerState) (p : String) (u : UnestablishedPipe) : ServerState :=
  { s with pathToUnestablishedPipe := upsertKey s.pathToUnestablishedPipe p u }

/-- delete this.pathToUnestablishedPipe[reqPath]. -/
def removePipe (s : ServerState) (p : String) : ServerState :=
  { s with pathToUnestablishedPipe := removeKey s.pathToUnestablishedPipe p }

/-- this.pathToEstablished[path] = true. -/
def setEstablished (s : ServerState) (p : String) : ServerState :=
  { s with pathToEstablished := addFlag s.pathToEstablished p }

/-- delete this.pathToEstablished[path]. -/
def clearEstablished (s : ServerState) (p : String) : ServerState :=
  { s with pathToEstablished := removeFlag s.pathToEstablished p }

/-- Fold a digit-character prefix into a natural number. -/
def digitsToNat : List Char → Nat → Nat
  | [], acc => acc
  | c :: cs, acc => digitsToNat cs (acc * 10 + (c.toNat - 48))

/-- JavaScript parseInt(str, 10): skip leading whitespace, accept an
optional sign, then the longest digit prefix; NaN (modelled as none)
when no digit follows. -/
def jsParseInt (str : String) : Option Int :=
  let cs := str.data.dropWhile
    (fun c => c = ' ' ∨ c = '\t' ∨ c = '\n' ∨ c = '\r')
  let signAndRest : Int × List Char :=
    match cs with
    | '-' :: r => (-1, r)
    | '+' :: r => (1, r)
    | _ => (1, cs)
  let ds := signAndRest.2.takeWhile (fun c => c.isDigit)
  if ds.isEmpty then none
  else some (signAndRest.1 * (digitsToNat ds 0 : Int))

/-- nanOrElse from piping.ts: return a unless it is NaN, else b. -/
def nanOrElse (a : Option Int) (b : Int) : Int :=
  match a with
  | some v => v
  | none => b

/-- Server.getNReceivers: the n query parameter (already extracted from
the request url, none when absent) parsed with parseInt base 10,
defaulting to 1 via nanOrElse. -/
def getNReceivers (nParam : Option String) : Int :=
  nanOrElse (nParam.bind jsParseInt) 1

/-- The reserved paths (Object.values(NAME_TO_RESERVED_PATH)). -/
def RESERVED_PATHS : List String := ["/", "/version", "/help"]

/-- A single-quote character, used inside the client-visible messages. -/
def apos : String := "\x27"

/-- Message: [ERROR] n should > 0, but n = N. -/
def badNMsg (n : Int) : String :=
  "[ERROR] n should > 0, but n = " ++ toString n ++ ".\n"

/-- Sender-side message: [ERROR] Connection on PATH has been established already. -/
def establishedSenderMsg (p : String) : String :=
  "[ERROR] Connection on " ++ apos ++ p ++ apos ++ " has been established already.\n"

/-- Receiver-side message: Error: Connection on PATH has been established already. -/
def establishedReceiverMsg (p : String) : String :=
  "Error: Connection on " ++ apos ++ p ++ apos ++ " has been established already.\n"

/-- Message: [ERROR] Another sender has been registered on PATH. -/
def anotherSenderMsg (p : String) : String :=
  "[ERROR] Another sender has been registered on " ++ apos ++ p ++ apos ++ ".\n"

/-- Message: Error: The number of receivers should be E but N. -/
def mismatchMsg (expected n : Int) : String :=
  "Error: The number of receivers should be " ++ toString expected ++
    " but " ++ toString n ++ ".\n"

/-- Message: Error: The number of receivers has reached limits. -/
def limitsMsg : String :=
  "Error: The number of receivers has reached limits.\n"

/-- Message: [ERROR] Cannot send to a reserved path PATH. -/
def reservedMsg (p : String) : String :=
  "[ERROR] Cannot send to a reserved path " ++ apos ++ p ++ apos ++
    ". (e.g. " ++ apos ++ "/mypath123" ++ apos ++ ")\n"

/-- Message: [INFO] Waiting for N receiver(s)... -/
def waitingMsg (n : Int) : String :=
  "[INFO] Waiting for " ++ toString n ++ " receiver(s)...\n"

/-- Message: [INFO] K receiver(s) has/have been connected. -/
def connectedCountMsg (k : Nat) : String :=
  "[INFO] " ++ toString k ++ " receiver(s) has/have been connected.\n"

/-- Message: [INFO] A receiver was connected. -/
def receiverConnectedMsg : String :=
  "[INFO] A receiver was connected.\n"

/-- Message written to the sender when it completes the quorum itself. -/
def startSendingMsg : String :=
  "Start sending!\n"

/-- Message: [INFO] Start sending with K receiver(s)! -/
def startSendingWithMsg (k : Nat) : String :=
  "[INFO] Start sending with " ++ toString k ++ " receiver(s)!\n"

/-- Message: [INFO] All receiver(s) was/were closed halfway. -/
def allClosedMsg : String :=
  "[INFO] All receiver(s) was/were closed halfway.\n"

/-- Message: [INFO] Sending Successful! -/
def sendingSuccessfulMsg : String :=
  "[INFO] Sending Successful!\n"

/-- Message: [ERROR] Sending Failed. -/
def sendingFailedMsg : String :=
  "[ERROR] Sending Failed.\n"

/-- Message: Error: Unsupported method: METHOD. -/
def unsupportedMethodMsg (m : String) : String :=
  "Error: Unsupported method: " ++ m ++ "\n"

/-- createSenderOrReceiver builds the participant handle; the close
listener it installs is modelled separately by closeListenerFire. -/
def createSenderOrReceiver (rid : Nat) : ReqResAndUnsubscribe :=
  { reqRes := { id := rid } }

/-- getPipeIfEstablished from piping.ts: when a sender is registered and
the receiver count has been reached, capture the participants as a Pipe
and (side effect, returned as outputs) call unsubscribeCloseListener on
each receiver.  Note the source calls it only on the receivers. -/
def getPipeIfEstablished (p : UnestablishedPipe) : Option (Pipe × List Output) :=
  match p.sender with
  | some snd =>
    if (p.receivers.length : Int) = p.nReceivers then
      some ({ sender := snd.reqRes, receivers := p.receivers.map (fun r => r.reqRes) },
            p.receivers.map (fun r => Output.unsubscribe r.reqRes.id))
    else
      none
  | none => none

/-- The synchronous registry part of runPipe: set the established flag,
delete the unestablished record, then write each receiver its 200 head
(the Content-Length/Content-Type header selection and the multipart
pre-stage are body plumbing and abstracted).  The startTransfer output
marks the hand-off of the captured participants to the transfer
engine. -/
def runPipeStart (s : ServerState) (p : String) (pipe : Pipe) : ServerState × List Output :=
  let s1 := setEstablished s p
  let s2 := removePipe s1 p
  (s2, Output.startTransfer p pipe.sender.id (pipe.receivers.map (fun r => r.id)) ::
        pipe.receivers.map (fun r => Output.writeHead r.id 200))

/-- handleSender from piping.ts.  np is the n query parameter, rid the
identity of the request/response pair, reqPath the canonical path. -/
def handleSender (s : ServerState) (np : Option String) (rid : Nat) (reqPath : String) :
    ServerState × List Output :=
  let nReceivers := getNReceivers np
  if nReceivers ≤ 0 then
    (s, [Output.writeHead rid 400, Output.endRes rid (badNMsg nReceivers)])
  else if established s reqPath then
    (s, [Output.writeHead rid 400, Output.endRes rid (establishedSenderMsg reqPath)])
  else
    match lookupPipe s reqPath with
    | some u =>
      match u.sender with
      | none =>
        if nReceivers = u.nReceivers then
          let newSender := createSenderOrReceiver rid
          let u2 := { u with sender := some newSender }
          let s2 := setPipe s reqPath u2
          let msgs := [Output.write rid (waitingMsg nReceivers),
                       Output.write rid (connectedCountMsg u.receivers.length)]
          match getPipeIfEstablished u2 with
          | some (pipe, unsubOuts) =>
            let r := runPipeStart s2 reqPath pipe
            (r.1, msgs ++ unsubOuts ++ [Output.write rid startSendingMsg] ++ r.2)
          | none => (s2, msgs)
        else
          (s, [Output.writeHead rid 400,
               Output.endRes rid (mismatchMsg u.nReceivers nReceivers)])
      | some _ =>
        (s, [Output.writeHead rid 400, Output.endRes rid (anotherSenderMsg reqPath)])
    | none =>
      (setPipe s reqPath
         { sender := some (createSenderOrReceiver rid), receivers := [],
           nReceivers := nReceivers },
       [Output.write rid (waitingMsg nReceivers)])

/-- handleReceiver from piping.ts. -/
def handleReceiver (s : ServerState) (np : Option String) (rid : Nat) (reqPath : String) :
    ServerState × List Output :=
  let nReceivers := getNReceivers np
  if nReceivers ≤ 0 then
    (s, [Output.writeHead rid 400, Output.endRes rid (badNMsg nReceivers)])
  else if established s reqPath then
    (s, [Output.writeHead rid 400, Output.endRes rid (establishedReceiverMsg reqPath)])
  else
    match lookupPipe s reqPath with
    | some u =>
      if nReceivers = u.nReceivers then
        if (u.receivers.length : Int) < u.nReceivers then
          let receiver := createSenderOrReceiver rid
          let u2 := { u with receivers := u.receivers ++ [receiver] }
          let s2 := setPipe s reqPath u2
          let senderMsgs :=
            match u.sender with
            | some sd => [Output.write sd.reqRes.id receiverConnectedMsg]
            | none => []
          match getPipeIfEstablished u2 with
          | some (pipe, unsubOuts) =>
            let r := runPipeStart s2 reqPath pipe
            (r.1, senderMsgs ++ unsubOuts ++
                  [Output.write pipe.sender.id (startSendingWithMsg pipe.receivers.length)] ++
                  r.2)
          | none => (s2, senderMsgs)
        else
          (s, [Output.writeHead rid 400, Output.endRes rid limitsMsg])
      else
        (s, [Output.writeHead rid 400,
             Output.endRes rid (mismatchMsg u.nReceivers nReceivers)])
    | none =>
      (setPipe s reqPath
         { sender := none, receivers := [createSenderOrReceiver rid],
           nReceivers := nReceivers },
       [])

/-- An incoming request, after path canonicalisation: the http method,
the canonical path, the n query parameter (none when absent) and the
identity of the request/response pair. -/
structure Request where
  method : String
  path : String
  nParam : Option String
  id : Nat
deriving DecidableEq, Repr

/-- The request handler produced by Server.generateHandler: route by
method, serve reserved paths, otherwise dispatch to handleSender or
handleReceiver.  The useHttps flag and the request headers only shape
the abstracted help page text and are omitted. -/
def generateHandler (s : ServerState) (rq : Request) : ServerState × List Output :=
  if rq.method = "POST" ∨ rq.method = "PUT" then
    if rq.path ∈ RESERVED_PATHS then
      (s, [Output.writeHead rq.id 400, Output.endRes rq.id (reservedMsg rq.path)])
    else
      handleSender s rq.nParam rq.id rq.path
  else if rq.method = "GET" then
    if rq.path = "/" then (s, [Output.endStatic rq.id StaticPage.index])
    else if rq.path = "/version" then (s, [Output.endStatic rq.id StaticPage.version])
    else if rq.path = "/help" then (s, [Output.endStatic rq.id StaticPage.help])
    else handleReceiver s rq.nParam rq.id rq.path
  else
    (s, [Output.endRes rq.id (unsupportedMethodMsg rq.method)])

/-- Whether the close listener created by createSenderOrReceiver was
installed for a sender or for a receiver. -/
inductive RemoverType where
  | sender
  | receiver
deriving DecidableEq, Repr

/-- The close listener installed by createSenderOrReceiver, fired when a
registered participant disconnects before establishment: remove the
participant from the record for reqPath (the sender slot, or the
receiver found by identity), and delete the record when it has neither
sender nor receivers left. -/
def closeListenerFire (s : ServerState) (removerType : RemoverType) (reqRes : ReqRes)
    (reqPath : String) : ServerState :=
  match lookupPipe s reqPath with
  | none => s
  | some u =>
    match removerType with
    | RemoverType.sender =>
      match u.sender with
      | some _ =>
        let u2 := { u with sender := none }
        if u2.receivers.length = 0 ∧ u2.sender = none then removePipe s reqPath
        else setPipe s reqPath u2
      | none => s
    | RemoverType.receiver =>
      match u.receivers.findIdx? (fun r => decide (r.reqRes = reqRes)) with
      | some idx =>
        let u2 := { u with receivers := u.receivers.eraseIdx idx }
        if u2.receivers.length = 0 ∧ u2.sender = none then removePipe s reqPath
        else setPipe s reqPath u2
      | none => s

/-- The closeReceiver closure inside runPipe, shared by the on-close and
on-error handlers of one receiver: bump closeCount, unpipe that
receiver, and when the count equals the captured receiver count, end the
sender with the all-closed message, clear the established flag, and
destroy the sender connection. -/
def closeReceiver (p : String) (senderRR : ReqRes) (receivers : List ReqRes) (rid : Nat)
    (s : ServerState) (closeCount : Nat) : ServerState × Nat × List Output :=
  let cc := closeCount + 1
  if cc = receivers.length then
    (clearEstablished s p, cc,
     [Output.unpipe rid, Output.endRes senderRR.id allClosedMsg,
      Output.destroyConn senderRR.id])
  else
    (s, cc, [Output.unpipe rid])

/-- The senderData on-close handler in runPipe: destroy every receiver
connection. -/
def senderDataOnClose (receivers : List ReqRes) : List Output :=
  receivers.map (fun r => Output.destroyConn r.id)

/-- The senderData on-end handler in runPipe: end the sender with the
success message and delete the established flag. -/
def senderDataOnEnd (p : String) (senderRR : ReqRes) (s : ServerState) :
    ServerState × List Output :=
  (clearEstablished s p, [Output.endRes senderRR.id sendingSuccessfulMsg])

/-- The senderData on-error handler in runPipe: end the sender with the
failure message and delete the established flag. -/
def senderDataOnError (p : String) (senderRR : ReqRes) (s : ServerState) :
    ServerState × List Output :=
  (clearEstablished s p, [Output.endRes senderRR.id sendingFailedMsg])

/-- A close or error event fired by one receiver of an established
transfer; both kinds of event invoke the same closeReceiver closure. -/
inductive ReceiverEvent where
  | close (rid : Nat)
  | error (rid : Nat)
deriving DecidableEq, Repr

/-- The id of the receiver that fired the event. -/
def ReceiverEvent.rid : ReceiverEvent → Nat
  | ReceiverEvent.close r => r
  | ReceiverEvent.error r => r

/-- Run a sequence of receiver close/error events of one established
transfer through the closeReceiver closure, threading the server state
and the shared closeCount and collecting the outputs. -/
def runReceiverEvents (p : String) (senderRR : ReqRes) (receivers : List ReqRes) :
    List ReceiverEvent → ServerState → Nat → ServerState × Nat × List Output
  | [], s, cc => (s, cc, [])
  | ev :: evs, s, cc =>
    let r1 := closeReceiver p senderRR receivers ev.rid s cc
    let r2 := runReceiverEvents p senderRR receivers evs r1.1 r1.2.1
    (r2.1, r2.2.1, r1.2.2 ++ r2.2.2)

/-- Count occurrences of an output in a list of outputs. -/
def countOut : List Output → Output → Nat
  | [], _ => 0
  | x :: xs, o => (if x = o then 1 else 0) + countOut xs o

/-- The messages written (res.write) to a given response, in order. -/
def writesTo (outs : List Output) (i : Nat) : List String :=
  outs.filterMap (fun o =>
    match o with
    | Output.write j m => if j = i then some m else none
    | _ => none)

/-- The status code of a response: the first explicitly written head, or
the node default 200 when none was written. -/
def responseStatus : List Output → Nat → Nat
  | [], _ => 200
  | Output.writeHead j st :: rest, i => if j = i then st else responseStatus rest i
  | _ :: rest, i => responseStatus rest i

/-- Whether an output is the hand-off to the transfer engine. -/
def isStartTransfer : Output → Bool
  | Output.startTransfer _ _ _ => true
  | _ => false

/-- Whether any output of a handler started the transfer engine. -/
def startedTransfer (outs : List Output) : Bool :=
  outs.any isStartTransfer

/-- Whether an output revokes a close-watcher. -/
def isUnsubscribe : Output → Bool
  | Output.unsubscribe _ => true
  | _ => false

/-- Whether an output belongs to the transfer body phase: the hand-off
to the transfer engine or flushing a 200 head to a receiver. -/
def isTransferPhase : Output → Bool
  | Output.startTransfer _ _ _ => true
  | Output.writeHead _ 200 => true
  | _ => false

/-- The establishment predicate of the spec: a sender is registered and
the receiver list has exactly the expected length. -/
def establishmentPred (u : UnestablishedPipe) : Prop :=
  u.sender ≠ none ∧ (u.receivers.length : Int) = u.nReceivers

/-- One transition of the whole server: an incoming request, a
pre-establishment close-watcher firing, a receiver close/error event of
an established transfer, or the source stream of an established
transfer ending or erroring. -/
inductive Step : ServerState → ServerState → Prop where
  | request (s : ServerState) (rq : Request) : Step s (generateHandler s rq).1
  | closeFire (s : ServerState) (t : RemoverType) (rr : ReqRes) (p : String) :
      Step s (closeListenerFire s t rr p)
  | receiverClosed (s : ServerState) (p : String) (snd : ReqRes) (rs : List ReqRes)
      (rid : Nat) (cc : Nat) : Step s (closeReceiver p snd rs rid s cc).1
  | sourceEnd (s : ServerState) (p : String) (snd : ReqRes) :
      Step s (senderDataOnEnd p snd s).1
  | sourceError (s : ServerState) (p : String) (snd : ReqRes) :
      Step s (senderDataOnError p snd s).1

/-- Server states reachable from the initial empty registry. -/
inductive Reachable : ServerState → Prop where
  | init : Reachable initialServerState
  | step (s s2 : ServerState) : Reachable s → Step s s2 → Reachable s2

/-- Invariant: every unestablished record has at most nReceivers
receivers, and nReceivers is at least one. -/
def PipeInv (s : ServerState) : Prop :=
  ∀ p u, lookupPipe s p = some u →
    (u.receivers.length : Int) ≤ u.nReceivers ∧ 1 ≤ u.nReceivers

/-- Invariant: no reserved path is a key of either registry map. -/
def ReservedInv (s : ServerState) : Prop :=
  ∀ p, p ∈ RESERVED_PATHS → lookupPipe s p = none ∧ ¬ established s p

/-! ## Registry lemmas -/

theorem lookupKey_upsertKey {α : Type} (l : List (String × α)) (p q : String) (v : α) :
    lookupKey (upsertKey l p v) q = if q = p then some v else lookupKey l q := by
  induction l with
  | nil =>
    simp only [upsertKey, lookupKey]
    rcases eq_or_ne q p with h | h
    · subst h; simp
    · rw [if_neg (Ne.symm h), if_neg h]
  | cons e es ih =>
    by_cases hep : e.1 = p
    · simp only [upsertKey, if_pos hep, lookupKey]
      rcases eq_or_ne q p with h | h
      · subst h; simp
      · rw [if_neg (Ne.symm h), if_neg h, if_neg (fun hq => h (hep.symm.trans hq).symm)]
    · simp only [upsertKey, if_neg hep, lookupKey, ih]
      by_cases heq : e.1 = q
      · rw [if_pos heq, if_neg (fun hqp => hep (heq.trans hqp)), if_pos heq]
      · rw [if_neg heq, if_neg heq]

theorem lookupKey_removeKey {α : Type} (l : List (String × α)) (p q : String) :
    lookupKey (removeKey l p) q = if q = p then none else lookupKey l q := by
  induction l with
  | nil =>
    simp only [removeKey, lookupKey]
    split <;> rfl
  | cons e es ih =>
    by_cases hep : e.1 = p
    · simp only [removeKey, if_pos hep, ih, lookupKey]
      rcases eq_or_ne q p with h | h
      · subst h; simp
      · rw [if_neg h, if_neg h, if_neg (fun hq => h (hep.symm.trans hq).symm)]
    · simp only [removeKey, if_neg hep, lookupKey, ih]
      by_cases heq : e.1 = q
      · rw [if_pos heq, if_neg (fun hqp => hep (heq.trans hqp)), if_pos heq]
      · rw [if_neg heq, if_neg heq]

theorem mem_addFlag (l : List String) (p q : String) :
    q ∈ addFlag l p ↔ q = p ∨ q ∈ l := by
  unfold addFlag
  split
  · rename_i h
    constructor
    · exact fun hq => Or.inr hq
    · rintro (rfl | hq)
      · exact h
      · exact hq
  · simp [List.mem_cons]

theorem mem_removeFlag (l : List String) (p q : String) :
    q ∈ removeFlag l p ↔ q ∈ l ∧ q ≠ p := by
  induction l with
  | nil => simp [removeFlag]
  | cons e es ih =>
    simp only [removeFlag]
    by_cases hep : e = p
    · rw [if_pos hep, ih]
      subst hep
      simp only [List.mem_cons]
      constructor
      · rintro ⟨hq, hne⟩; exact ⟨Or.inr hq, hne⟩
      · rintro ⟨(rfl | hq), hne⟩
        · exact absurd rfl hne
        · exact ⟨hq, hne⟩
    · rw [if_neg hep]
      simp only [List.mem_cons, ih]
      constructor
      · rintro (rfl | ⟨hq, hne⟩)
        · exact ⟨Or.inl rfl, hep⟩
        · exact ⟨Or.inr hq, hne⟩
      · rintro ⟨(rfl | hq), hne⟩
        · exact Or.inl rfl
        · exact Or.inr ⟨hq, hne⟩

theorem lookupPipe_setPipe (s : ServerState) (p q : String) (u : UnestablishedPipe) :
    lookupPipe (setPipe s p u) q = if q = p then some u else lookupPipe s q :=
  lookupKey_upsertKey _ _ _ _

theorem lookupPipe_removePipe (s : ServerState) (p q : String) :
    lookupPipe (removePipe s p) q = if q = p then none else lookupPipe s q :=
  lookupKey_removeKey _ _ _

theorem lookupPipe_setEstablished (s : ServerState) (p q : String) :
    lookupPipe (setEstablished s p) q = lookupPipe s q := rfl

theorem lookupPipe_clearEstablished (s : ServerState) (p q : String) :
    lookupPipe (clearEstablished s p) q = lookupPipe s q := rfl

theorem established_setPipe (s : ServerState) (p q : String) (u : UnestablishedPipe) :
    established (setPipe s p u) q ↔ established s q := Iff.rfl

theorem established_removePipe (s : ServerState) (p q : String) :
    established (removePipe s p) q ↔ established s q := Iff.rfl

theorem established_setEstablished (s : ServerState) (p q : String) :
    established (setEstablished s p) q ↔ q = p ∨ established s q :=
  mem_addFlag _ _ _

theorem established_clearEstablished (s : ServerState) (p q : String) :
    established (clearEstablished s p) q ↔ established s q ∧ q ≠ p :=
  mem_removeFlag _ _ _

/-! ## Claim C5: receiver count parsing and rejection of nonpositive counts -/

/-- Claim C5: the receiver count is getNReceivers of the n query
parameter (parseInt base 10 with default 1): an absent parameter and a
non-integer parameter such as abc yield 1, while 0 and -1 parse to
themselves; and every sender or receiver request whose count is
nonpositive is answered with status 400 and the n-should-be-positive
body while both registry maps are left untouched (no registration
occurs). -/
theorem c5_receiver_count_parsing :
    getNReceivers none = 1 ∧
    getNReceivers (some "abc") = 1 ∧
    getNReceivers (some "0") = 0 ∧
    getNReceivers (some "-1") = -1 ∧
    (∀ str, jsParseInt str = none → getNReceivers (some str) = 1) ∧
    (∀ str k, jsParseInt str = some k → getNReceivers (some str) = k) ∧
    (∀ s np rid p, getNReceivers np ≤ 0 →
      handleSender s np rid p =
        (s, [Output.writeHead rid 400, Output.endRes rid (badNMsg (getNReceivers np))]) ∧
      handleReceiver s np rid p =
        (s, [Output.writeHead rid 400, Output.endRes rid (badNMsg (getNReceivers np))])) := by
  refine ⟨by decide, by decide, by decide, by decide, ?_, ?_, ?_⟩
  · intro str h
    simp [getNReceivers, Option.bind, h, nanOrElse]
  · intro str k h
    simp [getNReceivers, Option.bind, h, nanOrElse]
  · intro s np rid p h
    constructor
    · simp only [handleSender, if_pos h]
    · simp only [handleReceiver, if_pos h]

/-- Witness for C5 at the concrete parameter 0. -/
theorem c5_witness :
    getNReceivers (some "0") ≤ 0 ∧
    handleSender initialServerState (some "0") 7 "/a" =
      (initialServerState, [Output.writeHead 7 400, Output.endRes 7 (badNMsg 0)]) ∧
    handleReceiver initialServerState (some "0") 7 "/a" =
      (initialServerState, [Output.writeHead 7 400, Output.endRes 7 (badNMsg 0)]) := by
  have h := c5_receiver_count_parsing.2.2.2.2.2.2 initialServerState (some "0") 7 "/a"
    (by decide)
  exact ⟨by decide, h.1, h.2⟩

/-! ## Claim C7: already-established rejections -/

/-- Claim C7: on a path whose established flag is set (and with a valid
receiver count, which the handlers check first, and a non-reserved path,
without which the router never consults the registry), a POST or PUT
sender is answered 400 with the bracketed ERROR body and a GET receiver
is answered 400 with the Error-prefixed body; the two bodies differ
exactly in that prefix, as spelled out by establishedSenderMsg and
establishedReceiverMsg. -/
theorem c7_already_established (s : ServerState) (p : String) (np : Option String)
    (rid : Nat) (hest : established s p) (hn : 0 < getNReceivers np)
    (hres : p ∉ RESERVED_PATHS) :
    generateHandler s { method := "POST", path := p, nParam := np, id := rid } =
      (s, [Output.writeHead rid 400, Output.endRes rid (establishedSenderMsg p)]) ∧
    generateHandler s { method := "PUT", path := p, nParam := np, id := rid } =
      (s, [Output.writeHead rid 400, Output.endRes rid (establishedSenderMsg p)]) ∧
    generateHandler s { method := "GET", path := p, nParam := np, id := rid } =
      (s, [Output.writeHead rid 400, Output.endRes rid (establishedReceiverMsg p)]) := by
  have hn0 : ¬ (getNReceivers np ≤ 0) := by omega
  have hmem := hres
  simp only [RESERVED_PATHS, List.mem_cons, List.mem_singleton, not_or] at hmem
  obtain ⟨h1, h2, h3⟩ := hmem
  refine ⟨?_, ?_, ?_⟩
  · simp [generateHandler, handleSender, hres, hn0, hest]
  · simp [generateHandler, handleSender, hres, hn0, hest]
  · simp [generateHandler, handleReceiver, h1, h2, h3, hn0, hest]

/-- Witness for C7 at a concrete established path. -/
theorem c7_witness :
    established { pathToEstablished := ["/x"], pathToUnestablishedPipe := [] } "/x" ∧
    generateHandler { pathToEstablished := ["/x"], pathToUnestablishedPipe := [] }
        { method := "POST", path := "/x", nParam := none, id := 3 } =
      ({ pathToEstablished := ["/x"], pathToUnestablishedPipe := [] },
       [Output.writeHead 3 400, Output.endRes 3 (establishedSenderMsg "/x")]) ∧
    generateHandler { pathToEstablished := ["/x"], pathToUnestablishedPipe := [] }
        { method := "GET", path := "/x", nParam := none, id := 3 } =
      ({ pathToEstablished := ["/x"], pathToUnestablishedPipe := [] },
       [Output.writeHead 3 400, Output.endRes 3 (establishedReceiverMsg "/x")]) := by
  have h := c7_already_established
    { pathToEstablished := ["/x"], pathToUnestablishedPipe := [] } "/x" none 3
    (by decide) (by decide) (by decide)
  exact ⟨by decide, h.1, h.2.2⟩

/-! ## Claim C9: unsupported methods -/

/-- Claim C9: a request whose method is none of GET, POST, PUT is ended
with the unsupported-method body, no status code is written (so the
response status is the node default 200), and the server state (both
registry maps) is unchanged. -/
theorem c9_unsupported_method (s : ServerState) (rq : Request) (h1 : rq.method ≠ "GET")
    (h2 : rq.method ≠ "POST") (h3 : rq.method ≠ "PUT") :
    (generateHandler s rq).1 = s ∧
    (generateHandler s rq).2 = [Output.endRes rq.id (unsupportedMethodMsg rq.method)] ∧
    responseStatus (generateHandler s rq).2 rq.id = 200 := by
  have hpp : ¬ (rq.method = "POST" ∨ rq.method = "PUT") := by tauto
  refine ⟨?_, ?_, ?_⟩ <;> simp [generateHandler, hpp, h1, responseStatus]

/-- Witness for C9 at the concrete method DELETE. -/
theorem c9_witness :
    (generateHandler initialServerState
        { method := "DELETE", path := "/a", nParam := none, id := 3 }).1 =
      initialServerState ∧
    (generateHandler initialServerState
        { method := "DELETE", path := "/a", nParam := none, id := 3 }).2 =
      [Output.endRes 3 (unsupportedMethodMsg "DELETE")] ∧
    responseStatus (generateHandler initialServerState
        { method := "DELETE", path := "/a", nParam := none, id := 3 }).2 3 = 200 :=
  c9_unsupported_method initialServerState
    { method := "DELETE", path := "/a", nParam := none, id := 3 }
    (by decide) (by decide) (by decide)

/-! ## Claim C1: establishment equivalence -/

theorem getPipeIfEstablished_some_iff (u : UnestablishedPipe) :
    (∃ x, getPipeIfEstablished u = some x) ↔ establishmentPred u := by
  cases hs : u.sender with
  | none => simp [getPipeIfEstablished, establishmentPred, hs]
  | some snd =>
    by_cases hlen : (u.receivers.length : Int) = u.nReceivers
    · simp [getPipeIfEstablished, establishmentPred, hs, hlen]
    · simp [getPipeIfEstablished, establishmentPred, hs, hlen]

/-- Claim C1: the transfer engine is handed a pipe on an arrival exactly
when, once the arriving participant is added to the record of the path
(the record must exist and the arrival must be admitted: the path is not
established, the count is positive and matches the record, and for a
sender the sender slot is free), the resulting record satisfies the
establishment predicate: a registered sender and exactly nReceivers
receivers.  Stated for both the sender handler and the receiver
handler; on every arrival missing one of these conditions no transfer
starts. -/
theorem c1_establishment_equivalence (s : ServerState) (np : Option String) (rid : Nat)
    (p : String) :
    (startedTransfer (handleSender s np rid p).2 = true ↔
      (¬ established s p ∧ 0 < getNReceivers np ∧
       ∃ u, lookupPipe s p = some u ∧ u.sender = none ∧
         u.nReceivers = getNReceivers np ∧
         establishmentPred { u with sender := some (createSenderOrReceiver rid) })) ∧
    (startedTransfer (handleReceiver s np rid p).2 = true ↔
      (¬ established s p ∧ 0 < getNReceivers np ∧
       ∃ u, lookupPipe s p = some u ∧ u.nReceivers = getNReceivers np ∧
         establishmentPred { u with receivers := u.receivers ++ [createSenderOrReceiver rid] })) := by
  constructor
  · simp only [handleSender]
    split
    · -- nonpositive receiver count
      rename_i h
      refine iff_of_false (by simp [startedTransfer, isStartTransfer]) ?_
      rintro ⟨-, hpos, -⟩
      omega
    · split
      · -- already established
        rename_i h
        refine iff_of_false (by simp [startedTransfer, isStartTransfer]) ?_
        rintro ⟨hest2, -⟩
        exact hest2 h
      · rename_i hn0 hest
        split
        · -- a record exists
          rename_i u hu
          split
          · -- sender slot free
            rename_i hsender
            split
            · -- matching count
              rename_i hmatch
              split
              · -- establishment: transfer starts
                rename_i x pipe unsubOuts hpipe
                refine iff_of_true
                  (by simp [startedTransfer, isStartTransfer, runPipeStart]) ?_
                refine ⟨hest, by omega, u, hu, hsender, hmatch.symm, ?_⟩
                exact (getPipeIfEstablished_some_iff _).mp ⟨(pipe, unsubOuts), hpipe⟩
              · -- predicate still false: no transfer
                rename_i hpipe
                refine iff_of_false (by simp [startedTransfer, isStartTransfer]) ?_
                rintro ⟨-, -, u2, h2u, -, -, h2pred⟩
                rw [hu] at h2u
                cases Option.some.inj h2u
                obtain ⟨x, hx⟩ := (getPipeIfEstablished_some_iff _).mpr h2pred
                rw [hpipe] at hx
                exact Option.noConfusion hx
            · -- count mismatch
              rename_i hmatch
              refine iff_of_false (by simp [startedTransfer, isStartTransfer]) ?_
              rintro ⟨-, -, u2, h2u, -, h2n, -⟩
              rw [hu] at h2u
              cases Option.some.inj h2u
              exact hmatch h2n.symm
          · -- another sender registered
            rename_i sd hsender
            refine iff_of_false (by simp [startedTransfer, isStartTransfer]) ?_
            rintro ⟨-, -, u2, h2u, h2sender, -, -⟩
            rw [hu] at h2u
            cases Option.some.inj h2u
            rw [hsender] at h2sender
            exact Option.noConfusion h2sender
        · -- no record: a fresh one is created, no transfer
          rename_i hu
          refine iff_of_false (by simp [startedTransfer, isStartTransfer]) ?_
          rintro ⟨-, -, u2, h2u, -⟩
          rw [hu] at h2u
          exact Option.noConfusion h2u
  · simp only [handleReceiver]
    split
    · rename_i h
      refine iff_of_false (by simp [startedTransfer, isStartTransfer]) ?_
      rintro ⟨-, hpos, -⟩
      omega
    · split
      · rename_i h
        refine iff_of_false (by simp [startedTransfer, isStartTransfer]) ?_
        rintro ⟨hest2, -⟩
        exact hest2 h
      · rename_i hn0 hest
        split
        · rename_i u hu
          split
          · -- matching count
            rename_i hmatch
            split
            · -- room for one more receiver
              rename_i hroom
              split
              · -- establishment: transfer starts
                rename_i x pipe unsubOuts hpipe
                refine iff_of_true
                  (by simp [startedTransfer, isStartTransfer, runPipeStart]) ?_
                refine ⟨hest, by omega, u, hu, hmatch.symm, ?_⟩
                exact (getPipeIfEstablished_some_iff _).mp ⟨(pipe, unsubOuts), hpipe⟩
              · -- predicate still false: no transfer
                rename_i hpipe
                refine iff_of_false ?_ ?_
                · cases hsd : u.sender with
                  | none => simp [hsd, startedTransfer, isStartTransfer]
                  | some sd => simp [hsd, startedTransfer, isStartTransfer]
                · rintro ⟨-, -, u2, h2u, -, h2pred⟩
                  rw [hu] at h2u
                  cases Option.some.inj h2u
                  obtain ⟨x, hx⟩ := (getPipeIfEstablished_some_iff _).mpr h2pred
                  rw [hpipe] at hx
                  exact Option.noConfusion hx
            · -- receivers full: rejected, and the grown record could not
              -- satisfy the predicate either
              rename_i hroom
              refine iff_of_false (by simp [startedTransfer, isStartTransfer]) ?_
              rintro ⟨-, -, u2, h2u, -, hpred⟩
              rw [hu] at h2u
              cases Option.some.inj h2u
              obtain ⟨-, hlen⟩ := hpred
              simp only [List.length_append, List.length_cons, List.length_nil] at hlen
              apply hroom
              push_cast at hlen ⊢
              omega
          · rename_i hmatch
            refine iff_of_false (by simp [startedTransfer, isStartTransfer]) ?_
            rintro ⟨-, -, u2, h2u, h2n, -⟩
            rw [hu] at h2u
            cases Option.some.inj h2u
            exact hmatch h2n.symm
        · rename_i hu
          refine iff_of_false (by simp [startedTransfer, isStartTransfer]) ?_
          rintro ⟨-, -, u2, h2u, -⟩
          rw [hu] at h2u
          exact Option.noConfusion h2u

/-- Witness for C1: a concrete receiver-first scenario in which the
arriving sender completes the quorum and the transfer starts. -/
theorem c1_witness :
    startedTransfer (handleSender
      { pathToEstablished := [],
        pathToUnestablishedPipe :=
          [("/foo", { sender := none, receivers := [{ reqRes := { id := 1 } }],
                      nReceivers := 1 })] }
      none 2 "/foo").2 = true :=
  (c1_establishment_equivalence
    { pathToEstablished := [],
      pathToUnestablishedPipe :=
        [("/foo", { sender := none, receivers := [{ reqRes := { id := 1 } }],
                    nReceivers := 1 })] }
    none 2 "/foo").1.mpr
    ⟨by decide, by decide,
     ⟨{ sender := none, receivers := [{ reqRes := { id := 1 } }], nReceivers := 1 },
      by decide, by decide, by decide, by decide, by decide⟩⟩

/-! ## Claim C6: sender joining an existing record -/

theorem generateHandler_post (s : ServerState) (p : String) (np : Option String)
    (rid : Nat) (hres : p ∉ RESERVED_PATHS) :
    generateHandler s { method := "POST", path := p, nParam := np, id := rid } =
      handleSender s np rid p := by
  simp [generateHandler, hres]

theorem generateHandler_put (s : ServerState) (p : String) (np : Option String)
    (rid : Nat) (hres : p ∉ RESERVED_PATHS) :
    generateHandler s { method := "PUT", path := p, nParam := np, id := rid } =
      handleSender s np rid p := by
  simp [generateHandler, hres]

theorem generateHandler_get (s : ServerState) (p : String) (np : Option String)
    (rid : Nat) (h1 : p ≠ "/") (h2 : p ≠ "/version") (h3 : p ≠ "/help") :
    generateHandler s { method := "GET", path := p, nParam := np, id := rid } =
      handleReceiver s np rid p := by
  simp [generateHandler, h1, h2, h3]

theorem writesTo_append (a b : List Output) (i : Nat) :
    writesTo (a ++ b) i = writesTo a i ++ writesTo b i := by
  simp [writesTo, List.filterMap_append]

theorem writesTo_unsubscribeMap (l : List ReqResAndUnsubscribe) (i : Nat) :
    writesTo (List.map (fun r => Output.unsubscribe r.reqRes.id) l) i = [] := by
  simp [writesTo, List.filterMap_map, Function.comp]

theorem writesTo_runPipeStart (s : ServerState) (p : String) (pipe : Pipe) (i : Nat) :
    writesTo (runPipeStart s p pipe).2 i = [] := by
  simp [writesTo, runPipeStart, List.filterMap_cons, List.filterMap_map, Function.comp]

/-- Claim C6: a POST sender joining, on a non-reserved non-established
path with a positive matching count, an existing record with a free
sender slot is registered and its response receives, in order, the
waiting message and then the K-receivers-connected message where K is
the number of already-connected receivers, followed by the
start-sending line exactly when K equals the expected count (in which
case the captured pipe, with this sender, is handed to the transfer
engine; otherwise the record now carries the sender). -/
theorem c6_sender_progress_messages (s : ServerState) (p : String) (np : Option String)
    (rid : Nat) (u : UnestablishedPipe) (hres : p ∉ RESERVED_PATHS)
    (hest : ¬ established s p) (hu : lookupPipe s p = some u) (hsender : u.sender = none)
    (hn : u.nReceivers = getNReceivers np) (hpos : 0 < getNReceivers np) :
    writesTo (generateHandler s { method := "POST", path := p, nParam := np, id := rid }).2 rid =
      [waitingMsg (getNReceivers np), connectedCountMsg u.receivers.length] ++
      (if (u.receivers.length : Int) = getNReceivers np then [startSendingMsg] else []) ∧
    ((u.receivers.length : Int) ≠ getNReceivers np →
      lookupPipe (generateHandler s { method := "POST", path := p, nParam := np, id := rid }).1 p =
        some { u with sender := some (createSenderOrReceiver rid) }) ∧
    ((u.receivers.length : Int) = getNReceivers np →
      Output.startTransfer p rid (u.receivers.map (fun r => r.reqRes.id)) ∈
        (generateHandler s { method := "POST", path := p, nParam := np, id := rid }).2) := by
  have hn0 : ¬ (getNReceivers np ≤ 0) := by omega
  rw [generateHandler_post s p np rid hres]
  simp only [handleSender, if_neg hn0, if_neg hest, hu, hsender, if_pos hn.symm]
  by_cases hK : (u.receivers.length : Int) = getNReceivers np
  · have hK2 : ((({ u with sender := some (createSenderOrReceiver rid) }
        : UnestablishedPipe).receivers.length : Int) =
        ({ u with sender := some (createSenderOrReceiver rid) }
          : UnestablishedPipe).nReceivers) := by
      simpa using hK.trans hn.symm
    simp only [getPipeIfEstablished, if_pos hK2]
    refine ⟨?_, fun hne => absurd hK hne, fun _ => ?_⟩
    · rw [writesTo_append, writesTo_append, writesTo_append, writesTo_unsubscribeMap,
        writesTo_runPipeStart]
      simp [writesTo, List.filterMap_cons, hK]
    · simp [runPipeStart, createSenderOrReceiver]
  · have hK2 : ¬ ((({ u with sender := some (createSenderOrReceiver rid) }
        : UnestablishedPipe).receivers.length : Int) =
        ({ u with sender := some (createSenderOrReceiver rid) }
          : UnestablishedPipe).nReceivers) := by
      simpa [hn] using hK
    simp only [getPipeIfEstablished, if_neg hK2]
    refine ⟨?_, fun _ => ?_, fun heq => absurd heq hK⟩
    · simp [writesTo, List.filterMap_cons, hK]
    · simp [lookupPipe_setPipe]

/-- Witness for C6: a concrete sender joining a record holding one
receiver with expected count one, completing the quorum. -/
theorem c6_witness :
    writesTo (generateHandler
      { pathToEstablished := [],
        pathToUnestablishedPipe :=
          [("/foo", { sender := none, receivers := [{ reqRes := { id := 1 } }],
                      nReceivers := 1 })] }
      { method := "POST", path := "/foo", nParam := none, id := 2 }).2 2 =
      [waitingMsg 1, connectedCountMsg 1] ++ [startSendingMsg] := by
  have h := (c6_sender_progress_messages
    { pathToEstablished := [],
      pathToUnestablishedPipe :=
        [("/foo", { sender := none, receivers := [{ reqRes := { id := 1 } }],
                    nReceivers := 1 })] }
    "/foo" none 2
    { sender := none, receivers := [{ reqRes := { id := 1 } }], nReceivers := 1 }
    (by decide) (by decide) (by decide) (by decide) (by decide) (by decide)).1
  simpa using h

/-! ## Claim C2: watcher revocation on establishment -/

@[simp] theorem isTransferPhase_write (i : Nat) (m : String) :
    isTransferPhase (Output.write i m) = false := rfl

@[simp] theorem isTransferPhase_endRes (i : Nat) (m : String) :
    isTransferPhase (Output.endRes i m) = false := rfl

@[simp] theorem isTransferPhase_writeHead400 (i : Nat) :
    isTransferPhase (Output.writeHead i 400) = false := rfl

@[simp] theorem isTransferPhase_unsubscribe (i : Nat) :
    isTransferPhase (Output.unsubscribe i) = false := rfl

@[simp] theorem isUnsubscribe_writeHead (i st : Nat) :
    isUnsubscribe (Output.writeHead i st) = false := rfl

@[simp] theorem isUnsubscribe_write (i : Nat) (m : String) :
    isUnsubscribe (Output.write i m) = false := rfl

@[simp] theorem isUnsubscribe_endRes (i : Nat) (m : String) :
    isUnsubscribe (Output.endRes i m) = false := rfl

@[simp] theorem isUnsubscribe_startTransfer (p : String) (i : Nat) (rs : List Nat) :
    isUnsubscribe (Output.startTransfer p i rs) = false := rfl

theorem transferFree_nil : ∀ o ∈ ([] : List Output), isTransferPhase o = false :=
  fun o ho => absurd ho (List.not_mem_nil o)

theorem transferFree_cons {o0 : Output} {rest : List Output}
    (h0 : isTransferPhase o0 = false)
    (h : ∀ o ∈ rest, isTransferPhase o = false) :
    ∀ o ∈ o0 :: rest, isTransferPhase o = false := by
  intro o ho
  rcases List.mem_cons.mp ho with rfl | ho2
  · exact h0
  · exact h o ho2

theorem transferFree_append {a b : List Output}
    (ha : ∀ o ∈ a, isTransferPhase o = false)
    (hb : ∀ o ∈ b, isTransferPhase o = false) :
    ∀ o ∈ a ++ b, isTransferPhase o = false := by
  intro o ho
  rcases List.mem_append.mp ho with h | h
  · exact ha o h
  · exact hb o h

theorem transferFree_unsubscribeMap (l : List ReqResAndUnsubscribe) :
    ∀ o ∈ l.map (fun r => Output.unsubscribe r.reqRes.id), isTransferPhase o = false := by
  intro o ho
  obtain ⟨r, -, rfl⟩ := List.mem_map.mp ho
  rfl

theorem unsubFree_nil : ∀ o ∈ ([] : List Output), isUnsubscribe o = false :=
  fun o ho => absurd ho (List.not_mem_nil o)

theorem unsubFree_cons {o0 : Output} {rest : List Output}
    (h0 : isUnsubscribe o0 = false)
    (h : ∀ o ∈ rest, isUnsubscribe o = false) :
    ∀ o ∈ o0 :: rest, isUnsubscribe o = false := by
  intro o ho
  rcases List.mem_cons.mp ho with rfl | ho2
  · exact h0
  · exact h o ho2

theorem unsubFree_writeHeadMap (l : List ReqRes) :
    ∀ o ∈ l.map (fun r => Output.writeHead r.id 200), isUnsubscribe o = false := by
  intro o ho
  obtain ⟨r, -, rfl⟩ := List.mem_map.mp ho
  rfl

/-- What getPipeIfEstablished returns when it succeeds: the unsubscribe
side effects are exactly one revocation per captured receiver, in
order, and the captured pipe holds the participants of the record. -/
theorem getPipeIfEstablished_spec (u : UnestablishedPipe) (pipe : Pipe)
    (outs : List Output) (h : getPipeIfEstablished u = some (pipe, outs)) :
    outs = u.receivers.map (fun r => Output.unsubscribe r.reqRes.id) ∧
    pipe.receivers = u.receivers.map (fun r => r.reqRes) ∧
    ∀ sd, u.sender = some sd → pipe.sender = sd.reqRes := by
  cases hs : u.sender with
  | none =>
    simp only [getPipeIfEstablished, hs] at h
    exact Option.noConfusion h
  | some snd =>
    simp only [getPipeIfEstablished, hs] at h
    by_cases hlen : (u.receivers.length : Int) = u.nReceivers
    · rw [if_pos hlen] at h
      injection h with h2
      injection h2 with hp ho
      subst hp
      subst ho
      refine ⟨rfl, rfl, fun sd hsd => ?_⟩
      cases Option.some.inj hsd
      rfl
    · rw [if_neg hlen] at h
      exact Option.noConfusion h

theorem countOut_unsubscribeMap (l : List ReqResAndUnsubscribe) (k : Nat) :
    countOut (l.map (fun r => Output.unsubscribe r.reqRes.id)) (Output.unsubscribe k) =
      (l.map (fun r => r.reqRes.id)).count k := by
  induction l with
  | nil => rfl
  | cons a l ih =>
    simp only [List.map_cons, countOut, ih, List.count_cons, Output.unsubscribe.injEq,
      beq_iff_eq]
    split
    · omega
    · omega

/-- Counterexample to claim C2 as stated: in a concrete establishing
arrival the transfer engine is handed the pipe (sender id 1, receiver
id 2) and the receiver close-watcher is revoked, but no revocation of
the sender close-watcher is ever emitted: getPipeIfEstablished calls
unsubscribeCloseListener only on the receivers. -/
theorem c2_counterexample :
    Output.startTransfer "/w" 1 [2] ∈
      (handleReceiver
        { pathToEstablished := [],
          pathToUnestablishedPipe :=
            [("/w", { sender := some { reqRes := { id := 1 } }, receivers := [],
                      nReceivers := 1 })] } none 2 "/w").2 ∧
    Output.unsubscribe 2 ∈
      (handleReceiver
        { pathToEstablished := [],
          pathToUnestablishedPipe :=
            [("/w", { sender := some { reqRes := { id := 1 } }, receivers := [],
                      nReceivers := 1 })] } none 2 "/w").2 ∧
    Output.unsubscribe 1 ∉
      (handleReceiver
        { pathToEstablished := [],
          pathToUnestablishedPipe :=
            [("/w", { sender := some { reqRes := { id := 1 } }, receivers := [],
                      nReceivers := 1 })] } none 2 "/w").2 := by
  decide

/-- Claim C2 (amended): when the establishment predicate becomes true
and the captured participants are handed to the transfer engine, every
receiver has its close-watcher revoked exactly once, and every
revocation is emitted before any transfer-phase output; the sender
close-watcher is not revoked (the source unsubscribes only the
receivers).  Stated as: the revocations returned by
getPipeIfEstablished are exactly one per receiver and none for the
sender, and in both handlers every output list splits into a
transfer-phase-free prefix (holding all revocations) followed by a
revocation-free suffix. -/
theorem c2_watcher_revocation :
    (∀ u pipe outs, getPipeIfEstablished u = some (pipe, outs) →
      outs = u.receivers.map (fun r => Output.unsubscribe r.reqRes.id)) ∧
    (∀ u pipe outs, getPipeIfEstablished u = some (pipe, outs) →
      (u.receivers.map (fun r => r.reqRes.id)).Nodup →
      ∀ r ∈ u.receivers, countOut outs (Output.unsubscribe r.reqRes.id) = 1) ∧
    (∀ u pipe outs sd, getPipeIfEstablished u = some (pipe, outs) →
      u.sender = some sd → sd.reqRes.id ∉ u.receivers.map (fun r => r.reqRes.id) →
      Output.unsubscribe sd.reqRes.id ∉ outs) ∧
    (∀ s np rid p, ∃ pre post,
      (handleSender s np rid p).2 = pre ++ post ∧
      (∀ o ∈ pre, isTransferPhase o = false) ∧
      (∀ o ∈ post, isUnsubscribe o = false)) ∧
    (∀ s np rid p, ∃ pre post,
      (handleReceiver s np rid p).2 = pre ++ post ∧
      (∀ o ∈ pre, isTransferPhase o = false) ∧
      (∀ o ∈ post, isUnsubscribe o = false)) := by
  refine ⟨?_, ?_, ?_, ?_, ?_⟩
  · intro u pipe outs h
    exact (getPipeIfEstablished_spec u pipe outs h).1
  · intro u pipe outs h hnd r hr
    rw [(getPipeIfEstablished_spec u pipe outs h).1, countOut_unsubscribeMap]
    exact List.count_eq_one_of_mem hnd (List.mem_map_of_mem _ hr)
  · intro u pipe outs sd h hsd hfresh hmem
    rw [(getPipeIfEstablished_spec u pipe outs h).1] at hmem
    obtain ⟨r, hr, he⟩ := List.mem_map.mp hmem
    injection he with hid
    exact hfresh (hid ▸ List.mem_map_of_mem _ hr)
  · intro s np rid p
    simp only [handleSender]
    split
    · exact ⟨_, [], (List.append_nil _).symm,
        transferFree_cons rfl (transferFree_cons rfl transferFree_nil), unsubFree_nil⟩
    · split
      · exact ⟨_, [], (List.append_nil _).symm,
          transferFree_cons rfl (transferFree_cons rfl transferFree_nil), unsubFree_nil⟩
      · split
        · rename_i u hu
          split
          · rename_i hsender
            split
            · rename_i hmatch
              split
              · rename_i x pipe unsubOuts heq
                obtain ⟨houts, -, -⟩ := getPipeIfEstablished_spec _ _ _ heq
                subst houts
                refine ⟨[Output.write rid (waitingMsg (getNReceivers np)),
                         Output.write rid (connectedCountMsg u.receivers.length)] ++
                        (({ u with sender := some (createSenderOrReceiver rid) }
                            : UnestablishedPipe).receivers.map
                          (fun r => Output.unsubscribe r.reqRes.id) ++
                         [Output.write rid startSendingMsg]),
                        Output.startTransfer p pipe.sender.id
                            (pipe.receivers.map (fun r => r.id)) ::
                          pipe.receivers.map (fun r => Output.writeHead r.id 200),
                        ?_, ?_, ?_⟩
                · simp [runPipeStart, List.append_assoc]
                · exact transferFree_append
                    (transferFree_cons rfl (transferFree_cons rfl transferFree_nil))
                    (transferFree_append (transferFree_unsubscribeMap _)
                      (transferFree_cons rfl transferFree_nil))
                · exact unsubFree_cons rfl (unsubFree_writeHeadMap _)
              · exact ⟨_, [], (List.append_nil _).symm,
                  transferFree_cons rfl (transferFree_cons rfl transferFree_nil),
                  unsubFree_nil⟩
            · exact ⟨_, [], (List.append_nil _).symm,
                transferFree_cons rfl (transferFree_cons rfl transferFree_nil),
                unsubFree_nil⟩
          · exact ⟨_, [], (List.append_nil _).symm,
              transferFree_cons rfl (transferFree_cons rfl transferFree_nil),
              unsubFree_nil⟩
        · exact ⟨_, [], (List.append_nil _).symm,
            transferFree_cons rfl transferFree_nil, unsubFree_nil⟩
  · intro s np rid p
    simp only [handleReceiver]
    split
    · exact ⟨_, [], (List.append_nil _).symm,
        transferFree_cons rfl (transferFree_cons rfl transferFree_nil), unsubFree_nil⟩
    · split
      · exact ⟨_, [], (List.append_nil _).symm,
          transferFree_cons rfl (transferFree_cons rfl transferFree_nil), unsubFree_nil⟩
      · split
        · rename_i u hu
          split
          · rename_i hmatch
            split
            · rename_i hroom
              split
              · rename_i x pipe unsubOuts heq
                obtain ⟨houts, -, -⟩ := getPipeIfEstablished_spec _ _ _ heq
                subst houts
                cases hsd : u.sender with
                | none =>
                  refine ⟨[] ++
                          (({ u with receivers :=
                              u.receivers ++ [createSenderOrReceiver rid] }
                              : UnestablishedPipe).receivers.map
                            (fun r => Output.unsubscribe r.reqRes.id) ++
                           [Output.write pipe.sender.id
                             (startSendingWithMsg pipe.receivers.length)]),
                          Output.startTransfer p pipe.sender.id
                              (pipe.receivers.map (fun r => r.id)) ::
                            pipe.receivers.map (fun r => Output.writeHead r.id 200),
                          ?_, ?_, ?_⟩
                  · simp [hsd, runPipeStart, List.append_assoc]
                  · exact transferFree_append transferFree_nil
                      (transferFree_append (transferFree_unsubscribeMap _)
                        (transferFree_cons rfl transferFree_nil))
                  · exact unsubFree_cons rfl (unsubFree_writeHeadMap _)
                | some sd =>
                  refine ⟨[Output.write sd.reqRes.id receiverConnectedMsg] ++
                          (({ u with receivers :=
                              u.receivers ++ [createSenderOrReceiver rid] }
                              : UnestablishedPipe).receivers.map
                            (fun r => Output.unsubscribe r.reqRes.id) ++
                           [Output.write pipe.sender.id
                             (startSendingWithMsg pipe.receivers.length)]),
                          Output.startTransfer p pipe.sender.id
                              (pipe.receivers.map (fun r => r.id)) ::
                            pipe.receivers.map (fun r => Output.writeHead r.id 200),
                          ?_, ?_, ?_⟩
                  · simp [hsd, runPipeStart, List.append_assoc]
                  · exact transferFree_append
                      (transferFree_cons rfl transferFree_nil)
                      (transferFree_append (transferFree_unsubscribeMap _)
                        (transferFree_cons rfl transferFree_nil))
                  · exact unsubFree_cons rfl (unsubFree_writeHeadMap _)
              · cases hsd : u.sender with
                | none =>
                  refine ⟨[], [], by simp [hsd], transferFree_nil, unsubFree_nil⟩
                | some sd =>
                  refine ⟨[Output.write sd.reqRes.id receiverConnectedMsg], [],
                    by simp [hsd], transferFree_cons rfl transferFree_nil, unsubFree_nil⟩
            · exact ⟨_, [], (List.append_nil _).symm,
                transferFree_cons rfl (transferFree_cons rfl transferFree_nil),
                unsubFree_nil⟩
          · exact ⟨_, [], (List.append_nil _).symm,
              transferFree_cons rfl (transferFree_cons rfl transferFree_nil),
              unsubFree_nil⟩
        · exact ⟨[], [], by simp, transferFree_nil, unsubFree_nil⟩

/-- Witness for C2 (amended): on a concrete establishment with one
receiver, the revocations are exactly one for that receiver. -/
theorem c2_witness :
    countOut [Output.unsubscribe 2] (Output.unsubscribe 2) = 1 :=
  c2_watcher_revocation.2.1
    { sender := some { reqRes := { id := 1 } },
      receivers := [{ reqRes := { id := 2 } }], nReceivers := 1 }
    { sender := { id := 1 }, receivers := [{ id := 2 }] }
    [Output.unsubscribe 2] (by decide) (by decide)
    { reqRes := { id := 2 } } (by decide)

/-! ## Claim C3: source error handling -/

/-- Counterexample to claim C3 as stated: with a concrete established
transfer (sender id 1, a receiver with id 2 captured), the senderData
on-error handler ends the sender with the failure message and clears
the flag, but emits no destruction of the receiver connection; only
the separate on-close handler of the source destroys receivers. -/
theorem c3_counterexample :
    established { pathToEstablished := ["/z"], pathToUnestablishedPipe := [] } "/z" ∧
    (senderDataOnError "/z" { id := 1 }
      { pathToEstablished := ["/z"], pathToUnestablishedPipe := [] }).2 =
      [Output.endRes 1 sendingFailedMsg] ∧
    Output.destroyConn 2 ∉
      (senderDataOnError "/z" { id := 1 }
        { pathToEstablished := ["/z"], pathToUnestablishedPipe := [] }).2 := by
  decide

/-- Claim C3 (amended): when the source stream of an established
transfer errors, the server ends the sender response with exactly the
sending-failed message and clears the established flag of that path
(leaving other paths and the unestablished map untouched); the error
handler does not destroy any receiver connection - the receivers are
destroyed by the separate source on-close handler. -/
theorem c3_source_error (p : String) (snd : ReqRes) (s : ServerState)
    (receivers : List ReqRes) :
    (senderDataOnError p snd s).2 = [Output.endRes snd.id sendingFailedMsg] ∧
    ¬ established (senderDataOnError p snd s).1 p ∧
    (∀ q, q ≠ p → (established (senderDataOnError p snd s).1 q ↔ established s q)) ∧
    lookupPipe (senderDataOnError p snd s).1 = lookupPipe s ∧
    (∀ r ∈ receivers, Output.destroyConn r.id ∉ (senderDataOnError p snd s).2) ∧
    (∀ r ∈ receivers, Output.destroyConn r.id ∈ senderDataOnClose receivers) := by
  refine ⟨rfl, ?_, ?_, rfl, ?_, ?_⟩
  · simp [senderDataOnError, established_clearEstablished]
  · intro q hq
    simp [senderDataOnError, established_clearEstablished, hq]
  · intro r hr hmem
    simp [senderDataOnError] at hmem
  · intro r hr
    exact List.mem_map_of_mem _ hr

/-- Witness for C3 (amended) at a concrete transfer. -/
theorem c3_witness :
    Output.destroyConn 2 ∈ senderDataOnClose [{ id := 2 }] :=
  (c3_source_error "/z" { id := 1 }
    { pathToEstablished := ["/z"], pathToUnestablishedPipe := [] }
    [{ id := 2 }]).2.2.2.2.2 { id := 2 } (by decide)

/-! ## Claim C4: receiver close counting -/

theorem countOut_append (a b : List Output) (o : Output) :
    countOut (a ++ b) o = countOut a o + countOut b o := by
  induction a with
  | nil => simp [countOut]
  | cons x a ih =>
    rw [List.cons_append]
    simp only [countOut]
    rw [ih]
    omega

/-- The behaviour of a sequence of receiver close/error events on one
established transfer, for arbitrary starting closeCount: the count
rises by one per event, and the all-closed termination (message to the
sender, sender destruction, flag clearing) fires exactly when the
count passes the captured receiver-list length. -/
theorem runReceiverEvents_spec (p : String) (snd : ReqRes) (rs : List ReqRes)
    (evs : List ReceiverEvent) : ∀ (s : ServerState) (cc : Nat),
    (runReceiverEvents p snd rs evs s cc).2.1 = cc + evs.length ∧
    countOut (runReceiverEvents p snd rs evs s cc).2.2 (Output.endRes snd.id allClosedMsg) =
      (if cc < rs.length ∧ rs.length ≤ cc + evs.length then 1 else 0) ∧
    countOut (runReceiverEvents p snd rs evs s cc).2.2 (Output.destroyConn snd.id) =
      (if cc < rs.length ∧ rs.length ≤ cc + evs.length then 1 else 0) ∧
    (runReceiverEvents p snd rs evs s cc).1 =
      (if cc < rs.length ∧ rs.length ≤ cc + evs.length then clearEstablished s p
       else s) := by
  induction evs with
  | nil =>
    intro s cc
    refine ⟨by simp [runReceiverEvents], ?_, ?_, ?_⟩
    · simp only [runReceiverEvents, countOut, List.length_nil, Nat.add_zero]
      rw [if_neg (by omega)]
    · simp only [runReceiverEvents, countOut, List.length_nil, Nat.add_zero]
      rw [if_neg (by omega)]
    · simp only [runReceiverEvents, List.length_nil, Nat.add_zero]
      rw [if_neg (by omega)]
  | cons ev evs ih =>
    intro s cc
    simp only [runReceiverEvents, List.length_cons]
    by_cases hcc : cc + 1 = rs.length
    · simp only [closeReceiver, if_pos hcc]
      obtain ⟨ih1, ih2, ih3, ih4⟩ := ih (clearEstablished s p) (cc + 1)
      refine ⟨by rw [ih1]; omega, ?_, ?_, ?_⟩
      · rw [countOut_append, ih2, if_neg (by omega), if_pos (by omega)]
        simp [countOut]
      · rw [countOut_append, ih3, if_neg (by omega), if_pos (by omega)]
        simp [countOut]
      · rw [ih4, if_neg (by omega), if_pos (by omega)]
    · simp only [closeReceiver, if_neg hcc]
      obtain ⟨ih1, ih2, ih3, ih4⟩ := ih s (cc + 1)
      refine ⟨by rw [ih1]; omega, ?_, ?_, ?_⟩
      · rw [countOut_append, ih2]
        simp [countOut]
        split_ifs <;> omega
      · rw [countOut_append, ih3]
        simp [countOut]
        split_ifs <;> omega
      · rw [ih4]
        split_ifs with h1 h2
        · rfl
        · exfalso; omega
        · exfalso; omega
        · rfl

/-- Counterexample to claim C4 as stated: with two captured receivers
(ids 2 and 3) the two events close and error of the single receiver 2
already drive the close-count to 2, so the all-closed terminal message
is written to the sender although receiver 3 never disconnected - the
on-close and on-error handlers of one receiver both invoke the same
closeReceiver closure. -/
theorem c4_counterexample :
    countOut (runReceiverEvents "/z" { id := 1 } [{ id := 2 }, { id := 3 }]
        [ReceiverEvent.close 2, ReceiverEvent.error 2]
        { pathToEstablished := ["/z"], pathToUnestablishedPipe := [] } 0).2.2
      (Output.endRes 1 allClosedMsg) = 1 ∧
    (∀ ev ∈ [ReceiverEvent.close 2, ReceiverEvent.error 2],
      ReceiverEvent.rid ev ∈ [2, 3]) ∧
    (∀ ev ∈ [ReceiverEvent.close 2, ReceiverEvent.error 2],
      ReceiverEvent.rid ev ≠ 3) := by
  decide

/-- Claim C4 (amended): each receiver close or error event increments
the shared close-count by one, and the server writes the all-closed
message to the sender, destroys the sender connection and clears the
established flag exactly when the number of close/error events reaches
the original receiver count R - which, because one receiver firing both
close and error counts twice, can happen before all R receivers have
disconnected (see the counterexample). -/
theorem c4_receiver_close_counting (p : String) (snd : ReqRes) (rs : List ReqRes)
    (evs : List ReceiverEvent) (s : ServerState) (hR : 0 < rs.length) :
    (runReceiverEvents p snd rs evs s 0).2.1 = evs.length ∧
    countOut (runReceiverEvents p snd rs evs s 0).2.2 (Output.endRes snd.id allClosedMsg) =
      (if rs.length ≤ evs.length then 1 else 0) ∧
    countOut (runReceiverEvents p snd rs evs s 0).2.2 (Output.destroyConn snd.id) =
      (if rs.length ≤ evs.length then 1 else 0) ∧
    (rs.length ≤ evs.length → ¬ established (runReceiverEvents p snd rs evs s 0).1 p) := by
  obtain ⟨h1, h2, h3, h4⟩ := runReceiverEvents_spec p snd rs evs s 0
  refine ⟨by simpa using h1, ?_, ?_, ?_⟩
  · rw [h2]
    split_ifs <;> omega
  · rw [h3]
    split_ifs <;> omega
  · intro hle
    rw [h4, if_pos (by omega)]
    simp [established_clearEstablished]

/-- Witness for C4 (amended): one receiver, one close event. -/
theorem c4_witness :
    (runReceiverEvents "/z" { id := 1 } [{ id := 2 }] [ReceiverEvent.close 2]
      { pathToEstablished := ["/z"], pathToUnestablishedPipe := [] } 0).2.1 =
      [ReceiverEvent.close 2].length :=
  (c4_receiver_close_counting "/z" { id := 1 } [{ id := 2 }] [ReceiverEvent.close 2]
    { pathToEstablished := ["/z"], pathToUnestablishedPipe := [] } (by decide)).1

/-! ## Claims C8 and C10: reachable-state invariants -/

theorem pipeInv_setPipe {s : ServerState} {p : String} {u : UnestablishedPipe}
    (h : PipeInv s) (hu1 : (u.receivers.length : Int) ≤ u.nReceivers)
    (hu2 : 1 ≤ u.nReceivers) : PipeInv (setPipe s p u) := by
  intro q v hv
  rw [lookupPipe_setPipe] at hv
  by_cases hq : q = p
  · rw [if_pos hq] at hv
    cases Option.some.inj hv
    exact ⟨hu1, hu2⟩
  · rw [if_neg hq] at hv
    exact h q v hv

theorem pipeInv_removePipe {s : ServerState} {p : String} (h : PipeInv s) :
    PipeInv (removePipe s p) := by
  intro q v hv
  rw [lookupPipe_removePipe] at hv
  by_cases hq : q = p
  · rw [if_pos hq] at hv
    exact Option.noConfusion hv
  · rw [if_neg hq] at hv
    exact h q v hv

theorem pipeInv_setEstablished {s : ServerState} {p : String} (h : PipeInv s) :
    PipeInv (setEstablished s p) :=
  fun q v hv => h q v hv

theorem pipeInv_clearEstablished {s : ServerState} {p : String} (h : PipeInv s) :
    PipeInv (clearEstablished s p) :=
  fun q v hv => h q v hv

theorem pipeInv_handleSender {s : ServerState} (np : Option String) (rid : Nat)
    (p : String) (h : PipeInv s) : PipeInv (handleSender s np rid p).1 := by
  simp only [handleSender]
  split
  · exact h
  · rename_i hn0
    split
    · exact h
    · split
      · rename_i u hu
        split
        · split
          · split
            · simp only [runPipeStart]
              obtain ⟨l1, l2⟩ := h p u hu
              exact pipeInv_removePipe (pipeInv_setEstablished
                (pipeInv_setPipe h (by simpa using l1) (by simpa using l2)))
            · obtain ⟨l1, l2⟩ := h p u hu
              exact pipeInv_setPipe h (by simpa using l1) (by simpa using l2)
          · exact h
        · exact h
      · exact pipeInv_setPipe h (by simp; omega)
          (by show (1 : Int) ≤ getNReceivers np; omega)

theorem pipeInv_handleReceiver {s : ServerState} (np : Option String) (rid : Nat)
    (p : String) (h : PipeInv s) : PipeInv (handleReceiver s np rid p).1 := by
  simp only [handleReceiver]
  split
  · exact h
  · rename_i hn0
    split
    · exact h
    · split
      · rename_i u hu
        split
        · split
          · rename_i hroom
            have hlen : (((u.receivers ++ [createSenderOrReceiver rid]).length : Int) ≤
                u.nReceivers) := by
              simp only [List.length_append, List.length_cons, List.length_nil]
              push_cast
              omega
            split
            · simp only [runPipeStart]
              obtain ⟨l1, l2⟩ := h p u hu
              exact pipeInv_removePipe (pipeInv_setEstablished
                (pipeInv_setPipe h (by simpa using hlen) (by simpa using l2)))
            · obtain ⟨l1, l2⟩ := h p u hu
              exact pipeInv_setPipe h (by simpa using hlen) (by simpa using l2)
          · exact h
        · exact h
      · exact pipeInv_setPipe h (by simp; omega)
          (by show (1 : Int) ≤ getNReceivers np; omega)

theorem pipeInv_closeListenerFire {s : ServerState} (t : RemoverType) (rr : ReqRes)
    (p : String) (h : PipeInv s) : PipeInv (closeListenerFire s t rr p) := by
  simp only [closeListenerFire]
  split
  · exact h
  · rename_i u hu
    split
    · split
      · split
        · exact pipeInv_removePipe h
        · obtain ⟨l1, l2⟩ := h p u hu
          exact pipeInv_setPipe h (by simpa using l1) (by simpa using l2)
      · exact h
    · split
      · rename_i idx hidx
        split
        · exact pipeInv_removePipe h
        · obtain ⟨l1, l2⟩ := h p u hu
          refine pipeInv_setPipe h ?_ (by simpa using l2)
          have hle := List.length_eraseIdx_le u.receivers idx
          simp only
          calc ((u.receivers.eraseIdx idx).length : Int)
              ≤ (u.receivers.length : Int) := by exact_mod_cast hle
            _ ≤ u.nReceivers := l1
      · exact h

theorem pipeInv_generateHandler {s : ServerState} (rq : Request) (h : PipeInv s) :
    PipeInv (generateHandler s rq).1 := by
  simp only [generateHandler]
  split
  · split
    · exact h
    · exact pipeInv_handleSender rq.nParam rq.id rq.path h
  · split
    · split
      · exact h
      · split
        · exact h
        · split
          · exact h
          · exact pipeInv_handleReceiver rq.nParam rq.id rq.path h
    · exact h

theorem pipeInv_step {s s2 : ServerState} (h : PipeInv s) (hs : Step s s2) :
    PipeInv s2 := by
  cases hs with
  | request rq => exact pipeInv_generateHandler rq h
  | closeFire t rr p => exact pipeInv_closeListenerFire t rr p h
  | receiverClosed p snd rs rid cc =>
    simp only [closeReceiver]
    split
    · exact pipeInv_clearEstablished h
    · exact h
  | sourceEnd p snd => exact pipeInv_clearEstablished h
  | sourceError p snd => exact pipeInv_clearEstablished h

/-- Claim C8: in every reachable server state, every record of the
unestablished-pipe map has at most nReceivers receivers and an expected
count of at least one; reachability closes the property under every
sender arrival, receiver arrival, close-watcher firing and transfer
event. -/
theorem c8_record_bounds_invariant (s : ServerState) (h : Reachable s) :
    ∀ p u, lookupPipe s p = some u →
      (u.receivers.length : Int) ≤ u.nReceivers ∧ 1 ≤ u.nReceivers := by
  induction h with
  | init => intro p u hu; exact Option.noConfusion hu
  | step s s2 hr hst ih => exact pipeInv_step ih hst

/-- Witness for C8 at a concrete reachable state (one registered
receiver on /foo). -/
theorem c8_witness :
    PipeInv (generateHandler initialServerState
      { method := "GET", path := "/foo", nParam := none, id := 1 }).1 :=
  c8_record_bounds_invariant _
    (Reachable.step _ _ Reachable.init (Step.request initialServerState
      { method := "GET", path := "/foo", nParam := none, id := 1 }))

theorem reservedInv_setPipe {s : ServerState} {p : String} {u : UnestablishedPipe}
    (h : ReservedInv s) (hp : p ∉ RESERVED_PATHS) : ReservedInv (setPipe s p u) := by
  intro q hq
  obtain ⟨h1, h2⟩ := h q hq
  have hne : q ≠ p := fun hqp => hp (by rw [← hqp]; exact hq)
  refine ⟨?_, h2⟩
  rw [lookupPipe_setPipe, if_neg hne]
  exact h1

theorem reservedInv_removePipe {s : ServerState} {p : String} (h : ReservedInv s) :
    ReservedInv (removePipe s p) := by
  intro q hq
  obtain ⟨h1, h2⟩ := h q hq
  refine ⟨?_, h2⟩
  rw [lookupPipe_removePipe]
  by_cases hqp : q = p
  · rw [if_pos hqp]
  · rw [if_neg hqp]
    exact h1

theorem reservedInv_setEstablished {s : ServerState} {p : String}
    (h : ReservedInv s) (hp : p ∉ RESERVED_PATHS) : ReservedInv (setEstablished s p) := by
  intro q hq
  obtain ⟨h1, h2⟩ := h q hq
  refine ⟨h1, fun hcon => ?_⟩
  rcases (established_setEstablished s p q).mp hcon with rfl | hcon2
  · exact hp hq
  · exact h2 hcon2

theorem reservedInv_clearEstablished {s : ServerState} {p : String}
    (h : ReservedInv s) : ReservedInv (clearEstablished s p) := by
  intro q hq
  obtain ⟨h1, h2⟩ := h q hq
  exact ⟨h1, fun hcon => h2 ((established_clearEstablished s p q).mp hcon).1⟩

theorem reservedInv_handleSender {s : ServerState} (np : Option String) (rid : Nat)
    (p : String) (h : ReservedInv s) (hp : p ∉ RESERVED_PATHS) :
    ReservedInv (handleSender s np rid p).1 := by
  simp only [handleSender]
  split
  · exact h
  · split
    · exact h
    · split
      · split
        · split
          · split
            · simp only [runPipeStart]
              exact reservedInv_removePipe
                (reservedInv_setEstablished (reservedInv_setPipe h hp) hp)
            · exact reservedInv_setPipe h hp
          · exact h
        · exact h
      · exact reservedInv_setPipe h hp

theorem reservedInv_handleReceiver {s : ServerState} (np : Option String) (rid : Nat)
    (p : String) (h : ReservedInv s) (hp : p ∉ RESERVED_PATHS) :
    ReservedInv (handleReceiver s np rid p).1 := by
  simp only [handleReceiver]
  split
  · exact h
  · split
    · exact h
    · split
      · split
        · split
          · split
            · simp only [runPipeStart]
              exact reservedInv_removePipe
                (reservedInv_setEstablished (reservedInv_setPipe h hp) hp)
            · exact reservedInv_setPipe h hp
          · exact h
        · exact h
      · exact reservedInv_setPipe h hp

theorem reservedInv_closeListenerFire {s : ServerState} (t : RemoverType) (rr : ReqRes)
    (p : String) (h : ReservedInv s) : ReservedInv (closeListenerFire s t rr p) := by
  by_cases hp : p ∈ RESERVED_PATHS
  · have h1 := (h p hp).1
    simp only [closeListenerFire, h1]
    exact h
  · simp only [closeListenerFire]
    split
    · exact h
    · split
      · split
        · split
          · exact reservedInv_removePipe h
          · exact reservedInv_setPipe h hp
        · exact h
      · split
        · split
          · exact reservedInv_removePipe h
          · exact reservedInv_setPipe h hp
        · exact h

theorem reservedInv_generateHandler {s : ServerState} (rq : Request)
    (h : ReservedInv s) : ReservedInv (generateHandler s rq).1 := by
  simp only [generateHandler]
  split
  · split
    · exact h
    · rename_i hp
      exact reservedInv_handleSender rq.nParam rq.id rq.path h hp
  · split
    · split
      · exact h
      · rename_i h1
        split
        · exact h
        · rename_i h2
          split
          · exact h
          · rename_i h3
            refine reservedInv_handleReceiver rq.nParam rq.id rq.path h ?_
            simp only [RESERVED_PATHS, List.mem_cons, List.mem_singleton, not_or]
            exact ⟨h1, h2, h3, by simp⟩
    · exact h

/-- Claim C10: no reserved path (the root, /version, /help) ever
appears as a key of the unestablished-pipe map or of the
established-flag map in any reachable state; a POST or PUT to a
reserved path is rejected with 400 and the reserved-path body before
any registration, and a GET on a reserved path is served a static page
with the state unchanged. -/
theorem c10_reserved_paths :
    (∀ s, Reachable s → ∀ p, p ∈ RESERVED_PATHS →
      lookupPipe s p = none ∧ ¬ established s p) ∧
    (∀ s rq, (rq.method = "POST" ∨ rq.method = "PUT") → rq.path ∈ RESERVED_PATHS →
      generateHandler s rq =
        (s, [Output.writeHead rq.id 400, Output.endRes rq.id (reservedMsg rq.path)])) ∧
    (∀ s rq, rq.method = "GET" → rq.path ∈ RESERVED_PATHS →
      (generateHandler s rq).1 = s ∧
      ∃ pg, (generateHandler s rq).2 = [Output.endStatic rq.id pg]) := by
  refine ⟨?_, ?_, ?_⟩
  · intro s h
    induction h with
    | init =>
      intro p hp
      exact ⟨rfl, by simp [initialServerState, established]⟩
    | step s s2 hr hst ih =>
      cases hst with
      | request rq => exact reservedInv_generateHandler rq ih
      | closeFire t rr p => exact reservedInv_closeListenerFire t rr p ih
      | receiverClosed p snd rs rid cc =>
        simp only [closeReceiver]
        split
        · exact reservedInv_clearEstablished ih
        · exact ih
      | sourceEnd p snd => exact reservedInv_clearEstablished ih
      | sourceError p snd => exact reservedInv_clearEstablished ih
  · intro s rq hm hp
    simp only [generateHandler, if_pos hm, if_pos hp]
  · intro s rq hm hp
    have hnp : ¬ (rq.method = "POST" ∨ rq.method = "PUT") := by
      rw [hm]
      decide
    simp only [generateHandler, if_neg hnp, if_pos hm]
    simp only [RESERVED_PATHS, List.mem_cons, List.not_mem_nil, or_false] at hp
    rcases hp with h1 | h1 | h1
    · rw [if_pos h1]
      exact ⟨rfl, StaticPage.index, rfl⟩
    · rw [if_neg (by rw [h1]; decide), if_pos h1]
      exact ⟨rfl, StaticPage.version, rfl⟩
    · rw [if_neg (by rw [h1]; decide), if_neg (by rw [h1]; decide), if_pos h1]
      exact ⟨rfl, StaticPage.help, rfl⟩

/-- Witness for C10: after a sender registers on /foo from the initial
state, the reserved path /version is in neither registry map. -/
theorem c10_witness :
    lookupPipe (generateHandler initialServerState
      { method := "POST", path := "/foo", nParam := none, id := 1 }).1 "/version" = none ∧
    ¬ established (generateHandler initialServerState
      { method := "POST", path := "/foo", nParam := none, id := 1 }).1 "/version" :=
  c10_reserved_paths.1 _
    (Reachable.step _ _ Reachable.init (Step.request initialServerState
      { method := "POST", path := "/foo", nParam := none, id := 1 }))
    "/version" (by decide)
